import Mathlib

/-!
Verification of the Adaptive-Load-Balancing-in-DDS simulator.

This file gives a shallow embedding, in Lean 4, of the parts of the
repository that the claims C1-C10 are about:

* `src/config.py`  — scalar configuration constants;
* `src/cluster.py` — the `Cluster` class: chunk→node map, owned-chunk sets,
  migration bookkeeping (`chunks_in_migration`, `recently_migrated`,
  cooldown), `can_migrate_chunk`, `get_hottest_chunk`, `migrate_chunk`;
* `src/node.py`    — the attributes `Node.__init__` actually creates;
* `src/metrics.py` — migration counters of the `MetricsCollector`;
* `src/balancers.py` — the `reactive_balancer` tick and
  `ProLBR_Agent.get_reward`;
* `src/q_table_agent.py` — `QTableAgent.update_model`;
* `src/simulation.py` / `src/main.py` — the balancer-type dispatch of the
  two `run_simulation` functions, and the module-level names relevant to
  the `from balancers import BaseRLAgent` statements.

Simulated time (simpy's `env.now`) is modelled by ℚ, Python ints by ℕ,
Python floats by ℚ.  The simpy generator `Cluster.migrate_chunk` is split
at its single `yield self.env.timeout(...)` point into an acceptance step
and a resumption step, which is exactly how the cooperative scheduler
interleaves it with other events.
-/

set_option autoImplicit false

/-! ## Configuration constants (src/config.py) -/

/-- config.py: `NUM_NODES = 4`. -/

def NUM_NODES : ℕ := 4

/-- config.py: `NUM_CHUNKS = 64`. -/

def NUM_CHUNKS : ℕ := 64

/-- config.py: `REACTIVE_THRESHOLD = 5`. -/

def REACTIVE_THRESHOLD : ℕ := 5

/-- config.py: `MIGRATION_TIME = 3` (seconds of simulated time). -/

def MIGRATION_TIME : ℚ := 3

/-- config.py: `IMBALANCE_PENALTY_FACTOR = 1.5`. -/

def IMBALANCE_PENALTY_FACTOR : ℚ := 3 / 2

/-- config.py: `LATENCY_REWARD_THRESH = [30, 50, 100, 200]` (p99 thresholds). -/

def LATENCY_REWARD_THRESH : List ℚ := [30, 50, 100, 200]

/-- config.py: `LATENCY_REWARD_VALUES = [15, 5, -5, -10, -20]`. -/

def LATENCY_REWARD_VALUES : List ℚ := [15, 5, -5, -10, -20]

/-- cluster.py line 23: `self.migration_cooldown = 25  # seconds`. -/

def migration_cooldown : ℚ := 25

/-! ## Cluster state (src/cluster.py, src/node.py, src/metrics.py)

`Node.__init__` (node.py lines 10-14) creates exactly the attributes
`env`, `node_id`, `proc_queue` and `chunks`; the only Node attribute the
claims below read or write besides `chunks` is `chunk_request_counts`,
which `Node.__init__` does NOT create (see `node_attributes`).  A node is
identified by its index in `Cluster.nodes`, so the per-node owned-chunk
sets are a function from node id to a finite set of chunk ids. -/

/-- Attributes assigned by `Node.__init__` (node.py lines 10-14).  No other
code in the repository ever assigns an attribute on a `Node` object, so a
lookup of any name outside this list raises `AttributeError`. -/

def node_attributes : List String :=
  ["env", "node_id", "proc_queue", "chunks"]

/-- Combined mutable state of the `Cluster` instance, the `metrics`
singleton's migration counters, and the simulation clock `env.now`.
`crashed` records that an uncaught Python exception has escaped a
simulation process (simpy re-raises it from `env.run`, halting the run). -/

structure SimState where
  /-- cluster.py: `self.chunk_map` (dict chunk id → node id; its key set is
  `range(NUM_CHUNKS)` and never changes, so it is modelled as a total map). -/
  chunk_map : ℕ → ℕ
  /-- node.py: `self.chunks` of each node, indexed by `node_id`. -/
  node_chunks : ℕ → Finset ℕ
  /-- cluster.py: `self.chunks_in_migration`. -/
  chunks_in_migration : Finset ℕ
  /-- cluster.py: `self.recently_migrated` (dict chunk id → completion time). -/
  recently_migrated : ℕ → Option ℚ
  /-- simpy's `env.now`. -/
  now : ℚ
  /-- metrics.py: `self.migrations_reactive`. -/
  migrations_reactive : ℕ
  /-- metrics.py: `self.migrations_proactive`. -/
  migrations_proactive : ℕ
  /-- true once an uncaught exception has halted the simulation. -/
  crashed : Bool

/-- State immediately after `Cluster.__init__` (cluster.py lines 10-23):
round-robin chunk placement `chunk_map[i] = i % NUM_NODES`, node `i % 4`
owning chunk `i`, empty migration bookkeeping, clock at 0. -/

def initState : SimState where
  chunk_map := fun c => c % NUM_NODES
  node_chunks := fun n => (Finset.range NUM_CHUNKS).filter (fun c => c % NUM_NODES = n)
  chunks_in_migration := ∅
  recently_migrated := fun _ => none
  now := 0
  migrations_reactive := 0
  migrations_proactive := 0
  crashed := false

/-- cluster.py lines 41-50, `Cluster.can_migrate_chunk`: a chunk may not
migrate while it is in `chunks_in_migration`, nor within
`migration_cooldown` seconds of its last recorded migration completion. -/

def can_migrate_chunk (s : SimState) (c : ℕ) : Bool :=
  if c ∈ s.chunks_in_migration then
    false
  else
    match s.recently_migrated c with
    | some t => if s.now - t < migration_cooldown then false else true
    | none => true

/-- metrics.py lines 20-25, `MetricsCollector.record_migration`: increments
the counter matching the label; any other label is silently ignored. -/

def record_migration (s : SimState) (label : String) : SimState :=
  if label = "reactive" then
    { s with migrations_reactive := s.migrations_reactive + 1 }
  else if label = "proactive" then
    { s with migrations_proactive := s.migrations_proactive + 1 }
  else s

/-- cluster.py lines 71-79: the part of `Cluster.migrate_chunk` that runs
before `yield self.env.timeout(MIGRATION_TIME)`.  If `from_node.node_id ==
to_node.node_id` or the chunk is not in `from_node.chunks`, the generator
returns at once: the returned flag `false` means no change was made and no
resumption is ever scheduled.  Otherwise it records the migration metric,
marks the chunk in-migration and suspends (flag `true`). -/

def migrate_accept (s : SimState) (c f t : ℕ) (label : String) : SimState × Bool :=
  if f = t then (s, false)
  else if c ∉ s.node_chunks f then (s, false)
  else
    let s1 := record_migration s label
    ({ s1 with chunks_in_migration := insert c s1.chunks_in_migration }, true)

/-- cluster.py lines 82-94: the part of `Cluster.migrate_chunk` that runs
when the process resumes after the migration delay.  If the chunk is still
in `from_node.chunks` it is removed there, added to `to_node.chunks`, the
chunk→node map is updated and the cooldown timestamp is stamped with
`env.now`; the next source line, `from_node.chunk_request_counts[chunk_id]
= 0`, then raises `AttributeError` (`Node.__init__`, node.py lines 10-14,
never creates `chunk_request_counts`, and no other code assigns it — see
`node_attributes`), so the process dies before the final `if chunk_id in
self.chunks_in_migration` block and the in-migration marker is NOT
cleared; simpy re-raises the exception from `env.run`, halting the run
(`crashed := true`).  If the chunk is no longer in `from_node.chunks`, the
mutation block is skipped and the in-migration marker is cleared. -/

def migrate_finish (s : SimState) (c f t : ℕ) : SimState :=
  if c ∈ s.node_chunks f then
    { s with
        node_chunks :=
          Function.update (Function.update s.node_chunks f ((s.node_chunks f).erase c)) t
            (insert c (Function.update s.node_chunks f ((s.node_chunks f).erase c) t)),
        chunk_map := Function.update s.chunk_map c t,
        recently_migrated := Function.update s.recently_migrated c (some s.now),
        crashed := true }
  else
    { s with chunks_in_migration := s.chunks_in_migration.erase c }

/-- One scheduler-visible event touching the cluster's ownership state:
the acceptance half of a `migrate_chunk` call, the resumption half, or the
clock advancing between events.  Interleaving these arbitrarily
over-approximates every schedule the simpy event loop can produce. -/

inductive MigEvent where
  | accept (c f t : ℕ) (label : String)
  | finish (c f t : ℕ)
  | advance (δ : ℚ)

/-- An event is well-formed when its node arguments denote actual members
of `Cluster.nodes` (every caller in the source passes elements of
`self.nodes`, whose ids are `0 .. NUM_NODES-1`); clock advances are
unconstrained. -/

def MigEvent.validb : MigEvent → Bool
  | .accept _ f t _ => decide (f < NUM_NODES) && decide (t < NUM_NODES)
  | .finish _ f t => decide (f < NUM_NODES) && decide (t < NUM_NODES)
  | .advance _ => true

/-- Effect of one event on the simulation state.  Once an uncaught
exception has escaped (`crashed`), `env.run` has re-raised it and no
further event executes. -/

def stepEv (s : SimState) (e : MigEvent) : SimState :=
  if s.crashed then s
  else
    match e with
    | .accept c f t label => (migrate_accept s c f t label).1
    | .finish c f t => migrate_finish s c f t
    | .advance δ => { s with now := s.now + δ }

/-- State reached from `Cluster.__init__` after a sequence of events. -/

def runEvents (tr : List MigEvent) : SimState :=
  tr.foldl stepEv initState

/-- Ownership consistency of a chunk→node map together with per-node
owned-chunk sets: every chunk id in `[0, NUM_CHUNKS)` is mapped to a real
node, that node's owned-chunk set contains it, and no other node's
owned-chunk set contains it. -/

def OwnershipMaps (cm : ℕ → ℕ) (ch : ℕ → Finset ℕ) : Prop :=
  ∀ c < NUM_CHUNKS,
    cm c < NUM_NODES ∧ c ∈ ch (cm c) ∧ ∀ n, n ≠ cm c → c ∉ ch n

/-- Ownership consistency of a simulation state. -/

def OwnershipInv (s : SimState) : Prop :=
  OwnershipMaps s.chunk_map s.node_chunks

/-! ## Hottest-chunk query and the reactive balancer
(src/cluster.py lines 53-69, src/balancers.py lines 9-38) -/

/-- Ascending enumeration of a multiset of naturals, computed by insertion
sort on any representing list (well-defined because permuted lists sort to
the same sorted list). -/

def multisetAsc (m : Multiset ℕ) : List ℕ :=
  Quot.lift (fun l => List.insertionSort (· ≤ ·) l)
    (fun l1 l2 (hp : l1 ≈ l2) =>
      List.eq_of_perm_of_sorted
        ((List.perm_insertionSort _ l1).trans (hp.trans (List.perm_insertionSort _ l2).symm))
        (List.sorted_insertionSort _ l1) (List.sorted_insertionSort _ l2)) m

/-- cluster.py line 60: the list comprehension
`[c for c in node.chunks if self.can_migrate_chunk(c)]`.  Python iterates
the set `node.chunks` in unspecified order; the ascending order of chunk
ids is taken as the canonical enumeration. -/

def available_chunks (s : SimState) (node_id : ℕ) : List ℕ :=
  multisetAsc ((s.node_chunks node_id).filter (fun c => can_migrate_chunk s c = true)).val

/-- Result of a Python call that either returns a value or raises
`AttributeError`. -/

inductive AttrResult where
  | ok (val : Option ℕ)
  | attributeError
  deriving DecidableEq

/-- cluster.py lines 53-69, `Cluster.get_hottest_chunk`: builds the list of
migration-eligible owned chunks; if it is empty, returns `None`; otherwise
it evaluates `max(available_chunks, key=lambda c:
node.chunk_request_counts[c])`, whose key function looks up the attribute
`node.chunk_request_counts` — an attribute `Node.__init__` (node.py lines
10-14) never creates and no other code assigns (see `node_attributes`) —
so the first key evaluation raises `AttributeError`. -/

def get_hottest_chunk (s : SimState) (node_id : ℕ) : AttrResult :=
  if available_chunks s node_id = [] then .ok none
  else .attributeError

/-- Modelled from the spec: the per-chunk request counter is missing from
the source (`Node.__init__` creates no `chunk_request_counts` and
`Node.process_request`, node.py lines 16-38, increments no per-chunk
counter), so the spec's "hottest eligible chunk" — among the
migration-eligible chunks owned by the node, the one with the highest
recorded per-chunk request count — is defined here over an explicit
counter map `counts`, following spec sections 4.2/4.3.  Ties resolve to
the first maximal element, as Python's `max` would. -/

def hottest_chunk_spec (s : SimState) (counts : ℕ → ℕ) (node_id : ℕ) : Option ℕ :=
  match available_chunks s node_id with
  | [] => none
  | c :: cs => some (cs.foldl (fun b i => if counts i > counts b then i else b) c)

/-- balancers.py line 22, `max(loads, key=loads.get)`: the loads dict is
built over node ids `0, 1, 2, 3` in that insertion order, and Python's
`max` returns the first key attaining the maximal value. -/

def argmax_first (loads : ℕ → ℕ) : ℕ :=
  [1, 2, 3].foldl (fun b i => if loads i > loads b then i else b) 0

/-- balancers.py line 23, `min(loads, key=loads.get)`: first key attaining
the minimal value. -/

def argmin_first (loads : ℕ → ℕ) : ℕ :=
  [1, 2, 3].foldl (fun b i => if loads i < loads b then i else b) 0

/-- balancers.py lines 15-38: one wake-up of `reactive_balancer` after its
`check_interval` timeout.  The loads snapshot is a parameter (queue depths
live in simpy resources); the dict always has `NUM_NODES` entries, so the
`if not loads: continue` guard never fires.  When `max − min` exceeds
`REACTIVE_THRESHOLD` and an eligible chunk exists, `random.choice
(available)` picks a uniformly random position, modelled by the draw `k`;
the result is the `(chunk, from_node, to_node)` triple handed to
`migrate_chunk`, and `none` when the cycle schedules no migration. -/

def reactive_tick (s : SimState) (loads : ℕ → ℕ) (k : ℕ) : Option (ℕ × ℕ × ℕ) :=
  if loads (argmax_first loads) - loads (argmin_first loads) > REACTIVE_THRESHOLD then
    if h : available_chunks s (argmax_first loads) = [] then none
    else
      some ((available_chunks s (argmax_first loads)).get
          ⟨k % (available_chunks s (argmax_first loads)).length,
            Nat.mod_lt _ (List.length_pos.mpr h)⟩,
        argmax_first loads, argmin_first loads)
  else none

/-! ## Reward computation (src/balancers.py lines 82-114, `ProLBR_Agent.get_reward`) -/

/-- Python `max(loads.values()) - min(loads.values()) if loads else 0`
(balancers.py line 88), as a rational. -/

def load_imbalance (loads : List ℕ) : ℚ :=
  match loads with
  | [] => 0
  | x :: xs => ((xs.foldl max x : ℕ) : ℚ) - ((xs.foldl min x : ℕ) : ℚ)

/-- numpy's `np.percentile(data, 99)` with its default linear
interpolation: on the sorted sample of length `n`, the value at fractional
position `(n-1)·99/100`, interpolating linearly between the two
neighbouring order statistics (0 on an empty sample, which `get_reward`
never passes). -/

def percentile99 (l : List ℚ) : ℚ :=
  match List.insertionSort (· ≤ ·) l with
  | [] => 0
  | x :: xs =>
      let n := (x :: xs).length
      let pos : ℚ := ((n - 1 : ℕ) : ℚ) * 99 / 100
      let i : ℕ := ⌊pos⌋.toNat
      let lo := (x :: xs).getD i 0
      let hi := (x :: xs).getD (i + 1) lo
      lo + (pos - (i : ℚ)) * (hi - lo)

/-- balancers.py lines 82-114, `ProLBR_Agent.get_reward`, translated line
by line: `imbalance_penalty = -imbalance * 1.5`; `recent =
metrics.response_times[-1000:]`; `if len(recent) < 200: return
imbalance_penalty`; otherwise add the hardcoded latency bracket value for
`p99 = np.percentile(recent, 99)`. -/

def get_reward (loads : List ℕ) (response_times : List ℚ) : ℚ :=
  let imbalance_penalty := -(load_imbalance loads) * (3 / 2 : ℚ)
  let recent := response_times.drop (response_times.length - 1000)
  if recent.length < 200 then
    imbalance_penalty
  else
    let p99 := percentile99 recent
    let latency_reward : ℚ :=
      if p99 < 30 then 15
      else if p99 < 50 then 5
      else if p99 < 100 then -5
      else if p99 < 200 then -10
      else -20
    imbalance_penalty + latency_reward

/-- Step function mapping a p99 value through threshold/value tables: the
value at the first threshold exceeding the input, or the last value when
no threshold does (the value table has one more entry than the threshold
table). -/

def latency_bracket_value : List ℚ → List ℚ → ℚ → ℚ
  | t :: ts, v :: vs, x => if x < t then v else latency_bracket_value ts vs x
  | [], v :: _, _ => v
  | _, [], _ => 0

/-- Reward function in the words of the spec (sections 4.6 and 7): the
imbalance term `−imbalance × IMBALANCE_PENALTY_FACTOR`, plus — only when
at least the minimum number of recent samples is available — exactly one
fixed bracket value, obtained by mapping the rolling-window p99 through
the step function given by `LATENCY_REWARD_THRESH` /
`LATENCY_REWARD_VALUES`; with insufficient samples the latency term is
omitted and no error is raised. -/

def get_reward_spec (loads : List ℕ) (response_times : List ℚ) : ℚ :=
  let imbalance_penalty := -(load_imbalance loads) * IMBALANCE_PENALTY_FACTOR
  let recent := response_times.drop (response_times.length - 1000)
  if recent.length < 200 then
    imbalance_penalty
  else
    imbalance_penalty +
      latency_bracket_value LATENCY_REWARD_THRESH LATENCY_REWARD_VALUES (percentile99 recent)

/-! ## Q-table update (src/q_table_agent.py lines 59-65) -/

/-- q_table_agent.py lines 59-65, `QTableAgent.update_model`: one Bellman
update of the lazily-zero-initialized Q-table at `(last_state,
last_action)` with `best_q` the maximum of the two action values at
`new_state`:
`Q(s,a) += alpha * (reward + gamma * best_q - Q(s,a))`. -/

def update_model {σ : Type} [DecidableEq σ] (alpha gamma : ℚ) (q : σ → Fin 2 → ℚ)
    (last_state : σ) (last_action : Fin 2) (reward : ℚ) (new_state : σ) :
    σ → Fin 2 → ℚ :=
  fun st a =>
    if st = last_state ∧ a = last_action then
      q last_state last_action +
        alpha * (reward + gamma * max (q new_state 0) (q new_state 1)
          - q last_state last_action)
    else q st a

/-! ## Run setup and module imports
(src/simulation.py lines 39-49, src/main.py lines 32-44, src/balancers.py,
src/q_table_agent.py, src/q_table_large_agent.py, src/dqn_agent.py) -/

/-- A balancing policy selectable at run setup. -/

inductive Balancer where
  | reactive
  | q_table
  | q_table_large
  | dqn
  | proactive
  deriving DecidableEq

/-- Outcome of `run_simulation(balancer_type)` up to the point where the
simulation clock would start (`env.run`). -/

inductive SetupResult where
  /-- the named balancer process was started; `env.run` is reached with it. -/
  | started (b : Balancer)
  /-- no dispatch branch matched and no error was raised: `env.run` is
  reached with the workload generator but no balancer process. -/
  | noBalancer
  /-- `raise ValueError(...)` fired before `env.run`. -/
  | valueError (msg : String)
  /-- a module-level `import` failed, so the constructor never ran. -/
  | importError
  deriving DecidableEq

/-- simulation.py lines 39-49: the `if/elif/else` dispatch of
`run_simulation`, whose `else` branch is
`raise ValueError(f"Unknown balancer type: ...")` — reached before
`env.run(until=config.SIM_TIME)`. -/

def simulation_dispatch (balancer_type : String) : SetupResult :=
  if balancer_type = "reactive" then .started .reactive
  else if balancer_type = "q_table" then .started .q_table
  else if balancer_type = "q_table_large" then .started .q_table_large
  else if balancer_type = "dqn" then .started .dqn
  else .valueError ("Unknown balancer type: " ++ balancer_type)

/-- main.py lines 33-37: the dispatch of main.py's `run_simulation` has
only the `reactive` and `proactive` branches and NO `else`: any other
string starts no balancer, raises nothing, and the function proceeds to
`env.run` with the workload generator alone. -/

def main_dispatch (balancer_type : String) : SetupResult :=
  if balancer_type = "reactive" then .started .reactive
  else if balancer_type = "proactive" then .started .proactive
  else .noBalancer

/-- Top-level names bound in the `balancers` module namespace: its imports
(balancers.py lines 2-6) and its two definitions, `reactive_balancer` and
`ProLBR_Agent` (lines 9 and 41).  `BaseRLAgent` is not among them, nor are
`get_raw_state`, `get_reward` (a method of `ProLBR_Agent` only, not a
module-level name) or `execute_action`. -/

def balancers_module_names : List String :=
  ["random", "collections", "np", "config", "metrics",
   "reactive_balancer", "ProLBR_Agent"]

/-- Python `from balancers import name` succeeds exactly when `name` is
bound in the balancers module namespace; otherwise it raises
`ImportError`. -/

def balancers_module_defines (name : String) : Bool :=
  name ∈ balancers_module_names

/-- Methods defined by `class QTableAgent(BaseRLAgent)`
(q_table_agent.py lines 11-96). -/

def q_table_agent_methods : List String :=
  ["__init__", "get_state", "choose_action", "update_model", "run"]

/-- Methods defined by `class QTableLargeAgent(BaseRLAgent)`
(q_table_large_agent.py lines 13-119). -/

def q_table_large_agent_methods : List String :=
  ["__init__", "get_state", "choose_action", "update_model", "run"]

/-- Methods defined by `class DQNAgent(BaseRLAgent)`
(dqn_agent.py lines 16-164). -/

def dqn_agent_methods : List String :=
  ["__init__", "get_state", "choose_action", "update_model", "run"]

/-- Methods the RL agents' `run` loops invoke on `self` without defining
them — they must come from the `BaseRLAgent` base class
(q_table_agent.py lines 71-90, q_table_large_agent.py lines 94-113,
dqn_agent.py lines 132-155). -/

def rl_base_calls : List String :=
  ["get_raw_state", "get_reward", "execute_action"]

/-- Agent modules imported unconditionally at the top of simulation.py
(lines 14-16): `from q_table_agent import QTableAgent`, `from
q_table_large_agent import QTableLargeAgent`, `from dqn_agent import
DQNAgent`.  These execute at module load, before `run_simulation` can be
called with any `balancer_type` at all. -/

def simulation_module_agent_imports : List String :=
  ["q_table_agent", "q_table_large_agent", "dqn_agent"]

/-- Whether importing the named agent module succeeds: each of the three
agent modules executes `from balancers import BaseRLAgent` at its own
module level (q_table_agent.py line 8, q_table_large_agent.py line 10,
dqn_agent.py line 12), which raises `ImportError` unless `BaseRLAgent` is
bound in the balancers module namespace; any other module named here
imports nothing from balancers. -/

def agent_module_import_ok (agent_module : String) : Bool :=
  if agent_module = "q_table_agent" ∨ agent_module = "q_table_large_agent"
      ∨ agent_module = "dqn_agent" then
    balancers_module_defines "BaseRLAgent"
  else true

/-- Setup outcome of calling simulation.py's `run_simulation
(balancer_type)`, accounting for module imports: loading simulation.py
first executes its module-level agent imports (lines 14-16, see
`simulation_module_agent_imports`), so if any of them fails, the
`ImportError` is raised before `run_simulation` even exists — whatever
`balancer_type` was going to be selected; only if all imports succeed does
a call reach the dispatch of lines 39-49. -/

def run_setup (balancer_type : String) : SetupResult :=
  if simulation_module_agent_imports.all (fun m => agent_module_import_ok m) then
    simulation_dispatch balancer_type
  else .importError

/-! ## Supporting lemmas -/

lemma ownershipInv_init : OwnershipInv initState := by
  intro c hc
  refine ⟨?_, ?_, ?_⟩
  · show c % NUM_NODES < NUM_NODES
    exact Nat.mod_lt _ (by decide)
  · show c ∈ (Finset.range NUM_CHUNKS).filter (fun x => x % NUM_NODES = c % NUM_NODES)
    simp only [Finset.mem_filter, Finset.mem_range]
    exact ⟨hc, trivial⟩
  · intro n hn
    show c ∉ (Finset.range NUM_CHUNKS).filter (fun x => x % NUM_NODES = n)
    simp only [Finset.mem_filter, Finset.mem_range, not_and]
    intro _ hmod
    exact hn hmod.symm

lemma ownershipMaps_move (cm : ℕ → ℕ) (ch : ℕ → Finset ℕ) (c f t : ℕ)
    (ht : t < NUM_NODES) (hin : c ∈ ch f) (h : OwnershipMaps cm ch) :
    OwnershipMaps (Function.update cm c t)
      (Function.update (Function.update ch f ((ch f).erase c)) t
        (insert c (Function.update ch f ((ch f).erase c) t))) := by
  intro c' hc'
  obtain ⟨hlt, hmem, huniq⟩ := h c' hc'
  by_cases hcc : c' = c
  · subst hcc
    have hf : f = cm c' := by
      by_contra hne
      exact huniq f hne hin
    refine ⟨?_, ?_, ?_⟩
    · rw [Function.update_same]
      exact ht
    · rw [Function.update_same, Function.update_same]
      exact Finset.mem_insert_self _ _
    · intro n hn
      rw [Function.update_same] at hn
      rw [Function.update_noteq hn, Function.update_apply]
      by_cases hnf : n = f
      · rw [if_pos hnf]
        exact Finset.not_mem_erase _ _
      · rw [if_neg hnf]
        exact huniq n (fun hh => hnf (hh.trans hf.symm))
  · have hmap : Function.update cm c t c' = cm c' := Function.update_noteq hcc _ _
    have hmemiff : ∀ n,
        c' ∈ Function.update (Function.update ch f ((ch f).erase c)) t
               (insert c (Function.update ch f ((ch f).erase c) t)) n
          ↔ c' ∈ ch n := by
      intro n
      rw [Function.update_apply, Function.update_apply]
      by_cases hnt : n = t
      · rw [if_pos hnt, Finset.mem_insert]
        subst hnt
        by_cases hnf : n = f
        · rw [if_pos hnf, hnf, Finset.mem_erase]
          simp [hcc]
        · rw [if_neg hnf]
          simp [hcc]
      · rw [if_neg hnt, Function.update_apply]
        by_cases hnf : n = f
        · rw [if_pos hnf, hnf, Finset.mem_erase]
          simp [hcc]
        · rw [if_neg hnf]
    refine ⟨?_, ?_, ?_⟩
    · rw [hmap]
      exact hlt
    · rw [hmap]
      exact (hmemiff _).mpr hmem
    · intro n hn
      rw [hmap] at hn
      exact fun hmem' => huniq n hn ((hmemiff n).mp hmem')

lemma ownershipInv_finish (s : SimState) (c f t : ℕ) (ht : t < NUM_NODES)
    (h : OwnershipInv s) : OwnershipInv (migrate_finish s c f t) := by
  unfold migrate_finish
  by_cases hin : c ∈ s.node_chunks f
  · rw [if_pos hin]
    exact ownershipMaps_move s.chunk_map s.node_chunks c f t ht hin h
  · rw [if_neg hin]
    exact h

lemma migrate_accept_components (s : SimState) (c f t : ℕ) (l : String) :
    (migrate_accept s c f t l).1.chunk_map = s.chunk_map ∧
    (migrate_accept s c f t l).1.node_chunks = s.node_chunks := by
  unfold migrate_accept record_migration
  split_ifs <;> exact ⟨rfl, rfl⟩

lemma ownershipInv_step (s : SimState) (e : MigEvent) (hv : e.validb = true)
    (h : OwnershipInv s) : OwnershipInv (stepEv s e) := by
  by_cases hcr : s.crashed = true
  · have : stepEv s e = s := by
      unfold stepEv
      rw [if_pos hcr]
    rw [this]
    exact h
  · cases e with
    | accept c f t label =>
        have hred : stepEv s (.accept c f t label) = (migrate_accept s c f t label).1 := by
          unfold stepEv
          rw [if_neg hcr]
        rw [hred]
        obtain ⟨h1, h2⟩ := migrate_accept_components s c f t label
        unfold OwnershipInv
        rw [h1, h2]
        exact h
    | finish c f t =>
        have hred : stepEv s (.finish c f t) = migrate_finish s c f t := by
          unfold stepEv
          rw [if_neg hcr]
        rw [hred]
        have ht : t < NUM_NODES := by
          unfold MigEvent.validb at hv
          simp only [Bool.and_eq_true, decide_eq_true_eq] at hv
          exact hv.2
        exact ownershipInv_finish s c f t ht h
    | advance δ =>
        have hred : stepEv s (.advance δ) = { s with now := s.now + δ } := by
          unfold stepEv
          rw [if_neg hcr]
        rw [hred]
        exact h

lemma ownershipInv_foldl (tr : List MigEvent) :
    ∀ s, OwnershipInv s → (∀ e ∈ tr, e.validb = true) →
      OwnershipInv (tr.foldl stepEv s) := by
  induction tr with
  | nil => intro s hs _; exact hs
  | cons e es ih =>
      intro s hs hv
      simp only [List.foldl_cons]
      exact ih _ (ownershipInv_step s e (hv e (List.mem_cons_self e es)) hs)
        (fun e' he' => hv e' (List.mem_cons_of_mem e he'))

lemma argmax_first_spec (loads : ℕ → ℕ) :
    ∀ n < NUM_NODES, loads n ≤ loads (argmax_first loads) := by
  intro n hn
  have hn4 : n < 4 := hn
  unfold argmax_first
  simp only [List.foldl_cons, List.foldl_nil]
  interval_cases n <;> split_ifs <;> omega

lemma argmin_first_spec (loads : ℕ → ℕ) :
    ∀ n < NUM_NODES, loads (argmin_first loads) ≤ loads n := by
  intro n hn
  have hn4 : n < 4 := hn
  unfold argmin_first
  simp only [List.foldl_cons, List.foldl_nil]
  interval_cases n <;> split_ifs <;> omega

lemma mem_multisetAsc {m : Multiset ℕ} {c : ℕ} (h : c ∈ multisetAsc m) : c ∈ m := by
  induction m using Quot.ind with
  | _ l =>
      have hl : c ∈ List.insertionSort (· ≤ ·) l := h
      exact (List.perm_insertionSort (· ≤ ·) l).mem_iff.mp hl

lemma mem_available_chunks {s : SimState} {node_id c : ℕ}
    (h : c ∈ available_chunks s node_id) :
    c ∈ s.node_chunks node_id ∧ can_migrate_chunk s c = true := by
  unfold available_chunks at h
  have h2 := mem_multisetAsc h
  rw [← Finset.mem_def, Finset.mem_filter] at h2
  exact h2

lemma update_model_at_target {σ : Type} [DecidableEq σ]
    (alpha gamma reward : ℚ) (q : σ → Fin 2 → ℚ) (ls ns : σ) (la : Fin 2) :
    update_model alpha gamma q ls la reward ns ls la
      = q ls la + alpha * (reward + gamma * max (q ns 0) (q ns 1) - q ls la) := by
  unfold update_model
  rw [if_pos ⟨rfl, rfl⟩]

lemma update_model_iterate_fixed {σ : Type} [DecidableEq σ]
    (alpha gamma reward : ℚ) (q0 : σ → Fin 2 → ℚ) (ls ns : σ) (la : Fin 2)
    (hne : ls ≠ ns) (n : ℕ) (a : Fin 2) :
    ((fun q => update_model alpha gamma q ls la reward ns)^[n] q0) ns a = q0 ns a := by
  induction n with
  | zero => rfl
  | succ k ih =>
      rw [Function.iterate_succ_apply']
      unfold update_model
      rw [if_neg]
      · exact ih
      · intro hcon
        exact hne (hcon.1.symm)

/-! ## Claim C1 -/

/-- Claim C1: starting from the initial round-robin assignment and across
every sequence of `migrate_chunk` operations (each split into its
acceptance and resumption halves, with the clock advancing arbitrarily in
between), at every simulated instant the chunk→node map assigns each chunk
id in `[0, NUM_CHUNKS)` to exactly one node, that node's owned-chunk set
contains the chunk, and no other node's owned-chunk set contains it.  This
holds at every instant, so in particular at every instant outside an
active migration's execution window. -/

theorem ownership_invariant_all_traces (tr : List MigEvent)
    (hv : ∀ e ∈ tr, e.validb = true) : OwnershipInv (runEvents tr) :=
  ownershipInv_foldl tr initState ownershipInv_init hv

/-- Witness for C1: the invariant after a concrete accepted migration of
chunk 0 from node 0 to node 1 that runs to completion. -/

theorem ownership_invariant_all_traces_witness :
    (∀ e ∈ ([.accept 0 0 1 "reactive", .advance 3, .finish 0 0 1] : List MigEvent),
        e.validb = true) ∧
    OwnershipInv (runEvents [.accept 0 0 1 "reactive", .advance 3, .finish 0 0 1]) :=
  ⟨by decide, ownership_invariant_all_traces _ (by decide)⟩

/-! ## Claim C3 -/

/-- Claim C3: a `migrate_chunk` call with `from_node == to_node` or with a
chunk not owned by `from_node` is a silent no-op: the generator returns
before its first `yield`, so the whole `SimState` — every owned-chunk set,
the chunk→node map, the in-migration set, the cooldown timestamps and both
migration counters — is returned unchanged, no exception is raised (the
function is total), and the flag `false` records that no resumption event
is ever scheduled. -/

theorem migrate_noop_on_precondition_violation (s : SimState) (c f t : ℕ)
    (label : String) (h : f = t ∨ c ∉ s.node_chunks f) :
    migrate_accept s c f t label = (s, false) := by
  unfold migrate_accept
  rcases h with h | h
  · rw [if_pos h]
  · by_cases hft : f = t
    · rw [if_pos hft]
    · rw [if_neg hft, if_pos h]

/-- Witness for C3: migrating chunk 3 from node 2 to itself leaves the
state untouched and records nothing. -/

theorem migrate_noop_witness :
    migrate_accept initState 3 2 2 "reactive" = (initState, false) :=
  migrate_noop_on_precondition_violation initState 3 2 2 "reactive" (Or.inl rfl)

/-! ## Claim C2 (code bug) -/

/-- Claim C2 fails on the code: on resumption of an accepted migration that
is still valid, the code does remove the chunk from `from_node.chunks`,
add it to `to_node.chunks`, update the chunk→node map and stamp the
cooldown timestamp, but the very next line
`from_node.chunk_request_counts[chunk_id] = 0` raises `AttributeError`
because `Node.__init__` never creates `chunk_request_counts` (and nothing
else does), so the counter is not reset and — contrary to the claim's "in
every case" — the in-migration marker is never cleared; the exception
escapes and halts the run.  Evaluated here on the concrete failing input:
migrating chunk 0 from node 0 to node 1 out of the initial state. -/

theorem migrate_resume_crashes_on_counter_reset :
    (runEvents [.accept 0 0 1 "reactive", .advance 3, .finish 0 0 1]).crashed = true ∧
    0 ∈ (runEvents [.accept 0 0 1 "reactive", .advance 3, .finish 0 0 1]).chunks_in_migration ∧
    0 ∈ (runEvents [.accept 0 0 1 "reactive", .advance 3, .finish 0 0 1]).node_chunks 1 ∧
    0 ∉ (runEvents [.accept 0 0 1 "reactive", .advance 3, .finish 0 0 1]).node_chunks 0 ∧
    (runEvents [.accept 0 0 1 "reactive", .advance 3, .finish 0 0 1]).chunk_map 0 = 1 ∧
    (runEvents [.accept 0 0 1 "reactive", .advance 3, .finish 0 0 1]).recently_migrated 0 = some 3 ∧
    "chunk_request_counts" ∉ node_attributes := by
  refine ⟨by decide, by decide, by decide, by decide, by decide, ?_, by decide⟩
  have h : (runEvents [.accept 0 0 1 "reactive", .advance 3, .finish 0 0 1]).recently_migrated 0
      = some ((0 : ℚ) + 3) := rfl
  rw [h]
  norm_num

/-! ## Claim C5 (code bug) -/

/-- Claim C5 fails on the code: `get_hottest_chunk` is documented (and
specified) to return the eligible owned chunk with the highest per-chunk
request count, but the counter it reads, `node.chunk_request_counts`, is
never created by `Node.__init__` and never incremented by
`Node.process_request`, so on the freshly initialized cluster — where node
0 owns sixteen eligible chunks — the call raises `AttributeError` instead
of returning a chunk.  Only the no-eligible-chunk branch behaves as
claimed and returns `None`. -/

theorem get_hottest_chunk_raises_attribute_error :
    "chunk_request_counts" ∉ node_attributes ∧
    get_hottest_chunk initState 0 = .attributeError ∧
    get_hottest_chunk { initState with node_chunks := fun _ => ∅ } 0 = .ok none := by
  decide

/-! ## Claim C4 (corrected) -/

/-- Counterexample to C4 as stated: on the initial cluster with node 0
overloaded (load 10 versus 1 elsewhere), the reactive balancer under draw
`k = 0` migrates chunk 0, while the hottest eligible chunk — taking the
spec's request counters to be `counts c = c`, making chunk 60 the hottest
— is chunk 60.  The selection is `random.choice`, independent of any
request count. -/

theorem reactive_tick_not_hottest_counterexample :
    reactive_tick initState (fun n => if n = 0 then 10 else 1) 0 = some (0, 0, 1) ∧
    hottest_chunk_spec initState (fun c => c) 0 = some 60 ∧
    (0 : ℕ) ≠ 60 := by
  decide

/-- Claim C4, amended: on a reactive-balancer tick, if `max − min` load
exceeds the threshold, the migrated chunk is a uniformly random
migration-eligible chunk owned by the most-loaded node (not the hottest:
every eligible chunk is selected under some draw, and the choice ignores
request counts), the source is the first node attaining the maximum load,
the target the first node attaining the minimum; the cycle is skipped when
no eligible chunk exists or the imbalance is within the threshold. -/

theorem reactive_tick_random_eligible (s : SimState) (loads : ℕ → ℕ) (k : ℕ) :
    (∀ c f t, reactive_tick s loads k = some (c, f, t) →
      c ∈ s.node_chunks f ∧ can_migrate_chunk s c = true ∧
      f = argmax_first loads ∧ t = argmin_first loads ∧
      (∀ n < NUM_NODES, loads n ≤ loads f) ∧
      (∀ n < NUM_NODES, loads t ≤ loads n) ∧
      loads f - loads t > REACTIVE_THRESHOLD) ∧
    (available_chunks s (argmax_first loads) = [] → reactive_tick s loads k = none) ∧
    (¬ loads (argmax_first loads) - loads (argmin_first loads) > REACTIVE_THRESHOLD →
      reactive_tick s loads k = none) ∧
    (∀ c, c ∈ available_chunks s (argmax_first loads) →
      loads (argmax_first loads) - loads (argmin_first loads) > REACTIVE_THRESHOLD →
      ∃ j, reactive_tick s loads j = some (c, argmax_first loads, argmin_first loads)) := by
  refine ⟨?_, ?_, ?_, ?_⟩
  · intro c f t hsome
    unfold reactive_tick at hsome
    by_cases hdiff : loads (argmax_first loads) - loads (argmin_first loads)
        > REACTIVE_THRESHOLD
    · rw [if_pos hdiff] at hsome
      by_cases havail : available_chunks s (argmax_first loads) = []
      · rw [dif_pos havail] at hsome
        cases hsome
      · rw [dif_neg havail] at hsome
        simp only [Option.some.injEq, Prod.mk.injEq] at hsome
        obtain ⟨hc, hf, htt⟩ := hsome
        subst hf; subst htt
        have hmem : c ∈ available_chunks s (argmax_first loads) := by
          rw [← hc]
          exact List.get_mem _ _ _
        obtain ⟨h1, h2⟩ := mem_available_chunks hmem
        exact ⟨h1, h2, rfl, rfl, argmax_first_spec loads, argmin_first_spec loads, hdiff⟩
    · rw [if_neg hdiff] at hsome
      cases hsome
  · intro hempty
    unfold reactive_tick
    by_cases hdiff : loads (argmax_first loads) - loads (argmin_first loads)
        > REACTIVE_THRESHOLD
    · rw [if_pos hdiff, dif_pos hempty]
    · rw [if_neg hdiff]
  · intro hdiff
    unfold reactive_tick
    rw [if_neg hdiff]
  · intro c hmem hdiff
    obtain ⟨⟨i, hi⟩, hval⟩ := List.mem_iff_get.mp hmem
    refine ⟨i, ?_⟩
    have hne : ¬ available_chunks s (argmax_first loads) = [] := by
      intro hh
      rw [hh] at hmem
      exact absurd hmem (List.not_mem_nil c)
    have hget : ∀ pf : i % (available_chunks s (argmax_first loads)).length
        < (available_chunks s (argmax_first loads)).length,
        (available_chunks s (argmax_first loads)).get
          ⟨i % (available_chunks s (argmax_first loads)).length, pf⟩ = c := by
      intro pf
      rw [← hval]
      congr 1
      exact Fin.ext (Nat.mod_eq_of_lt hi)
    unfold reactive_tick
    rw [if_pos hdiff, dif_neg hne]
    simp only [hget]

/-- Witness for the amended C4: on the initial cluster with node 0 at load
10 and the rest at load 1, draw `k = 1` selects chunk 4, which is indeed an
eligible chunk of the most-loaded node 0. -/

theorem reactive_tick_random_eligible_witness :
    4 ∈ initState.node_chunks 0 ∧ can_migrate_chunk initState 4 = true ∧
    (0 : ℕ) = argmax_first (fun n => if n = 0 then 10 else 1) ∧
    (1 : ℕ) = argmin_first (fun n => if n = 0 then 10 else 1) ∧
    (∀ n < NUM_NODES,
      (fun n => if n = 0 then 10 else 1) n ≤ (fun n => if n = 0 then 10 else 1) 0) ∧
    (∀ n < NUM_NODES,
      (fun n => if n = 0 then 10 else 1) 1 ≤ (fun n => if n = 0 then 10 else 1) n) ∧
    (fun n => if n = 0 then 10 else 1) 0 - (fun n => if n = 0 then 10 else 1) 1
      > REACTIVE_THRESHOLD :=
  (reactive_tick_random_eligible initState (fun n => if n = 0 then 10 else 1) 1).1
    4 0 1 (by decide)

/-! ## Claim C6 -/

/-- Claim C6: `can_migrate_chunk` returns false exactly when the chunk is in
the in-migration set or its last recorded migration completed less than
`migration_cooldown` simulated seconds ago, and true otherwise; in
particular, for a chunk whose migration completed at time `t` (and which is
not concurrently marked in-migration again) the answer is false at every
query time in `[t, t + migration_cooldown)` and true at any query time
`≥ t + migration_cooldown`. -/

theorem can_migrate_chunk_spec (s : SimState) (c : ℕ) :
    (can_migrate_chunk s c = false ↔
      (c ∈ s.chunks_in_migration ∨
        ∃ t, s.recently_migrated c = some t ∧ s.now - t < migration_cooldown)) ∧
    (∀ t, s.recently_migrated c = some t →
      ((t ≤ s.now ∧ s.now < t + migration_cooldown → can_migrate_chunk s c = false) ∧
       (c ∉ s.chunks_in_migration → t + migration_cooldown ≤ s.now →
         can_migrate_chunk s c = true))) := by
  constructor
  · unfold can_migrate_chunk
    by_cases hm : c ∈ s.chunks_in_migration
    · simp [hm]
    · simp only [hm, if_false]
      cases hr : s.recently_migrated c with
      | none => simp [hm, hr]
      | some t =>
        by_cases hc : s.now - t < migration_cooldown
        · simp [hm, hr, hc]
        · simp [hm, hr, hc]
  · intro t ht
    constructor
    · rintro ⟨_, hlt⟩
      unfold can_migrate_chunk
      have hc : s.now - t < migration_cooldown := by linarith
      by_cases hm : c ∈ s.chunks_in_migration
      · simp [hm]
      · simp [hm, ht, hc]
    · intro hm hge
      have hc : ¬ s.now - t < migration_cooldown := by
        intro h; linarith
      unfold can_migrate_chunk
      simp [hm, ht, hc]

/-- Witness for C6: in a concrete state where chunk 5's migration completed
at time 10 and the clock reads 20, the cooldown (25 s) is still active, so
`can_migrate_chunk` answers false. -/

theorem can_migrate_chunk_spec_witness :
    can_migrate_chunk
      { initState with
          recently_migrated := fun c => if c = 5 then some 10 else none,
          now := 20 } 5 = false :=
  ((can_migrate_chunk_spec
      { initState with
          recently_migrated := fun c => if c = 5 then some 10 else none,
          now := 20 } 5).2 10 (by simp)).1 ⟨by norm_num, by norm_num [migration_cooldown]⟩

/-! ## Claim C7 -/

/-- Claim C7: with fewer than the minimum number of recent response-time
samples, `get_reward` returns exactly the imbalance term
`−imbalance × penalty_factor` (no latency term, no error — the function is
total); otherwise it returns the imbalance term plus exactly one fixed
bracket value, namely the entry of `LATENCY_REWARD_VALUES` selected by the
bracket of `LATENCY_REWARD_THRESH` into which the rolling-window p99
falls; the hardcoded constants of the source agree with the configured
tables. -/

theorem get_reward_brackets (loads : List ℕ) (response_times : List ℚ) :
    get_reward loads response_times = get_reward_spec loads response_times ∧
    latency_bracket_value LATENCY_REWARD_THRESH LATENCY_REWARD_VALUES
        (percentile99 (response_times.drop (response_times.length - 1000)))
      ∈ LATENCY_REWARD_VALUES := by
  have hbr : ∀ x : ℚ, latency_bracket_value LATENCY_REWARD_THRESH LATENCY_REWARD_VALUES x
      = if x < 30 then (15 : ℚ)
        else if x < 50 then 5
        else if x < 100 then -5
        else if x < 200 then -10
        else -20 := by
    intro x
    simp only [LATENCY_REWARD_THRESH, LATENCY_REWARD_VALUES, latency_bracket_value]
  constructor
  · simp only [get_reward, get_reward_spec, IMBALANCE_PENALTY_FACTOR, hbr]
  · rw [hbr]
    unfold LATENCY_REWARD_VALUES
    split_ifs <;> simp

/-! ## Claim C8 -/

/-- Claim C8: for learning rate `alpha ∈ (0,1]`, any discount `gamma`,
fixed reward and a distinct next state (so that its maximum action value
stays constant at `m = max (q0 ns 0) (q0 ns 1)`), repeatedly applying
`update_model` to the same `(state, action, reward, next_state)` scales
the distance `|Q(state,action) − (reward + gamma·m)|` by `1 − alpha` at
every step; in particular the distance never increases, so `Q(state,
action)` monotonically approaches `reward + gamma·m`. -/

theorem q_update_monotone_convergence {σ : Type} [DecidableEq σ]
    (alpha gamma reward : ℚ) (q0 : σ → Fin 2 → ℚ) (ls ns : σ) (la : Fin 2)
    (halpha : 0 < alpha) (halpha1 : alpha ≤ 1) (hne : ls ≠ ns) :
    ∀ n : ℕ,
      |((fun q => update_model alpha gamma q ls la reward ns)^[n + 1] q0) ls la
          - (reward + gamma * max (q0 ns 0) (q0 ns 1))|
        = (1 - alpha) *
          |((fun q => update_model alpha gamma q ls la reward ns)^[n] q0) ls la
            - (reward + gamma * max (q0 ns 0) (q0 ns 1))| ∧
      |((fun q => update_model alpha gamma q ls la reward ns)^[n + 1] q0) ls la
          - (reward + gamma * max (q0 ns 0) (q0 ns 1))|
        ≤ |((fun q => update_model alpha gamma q ls la reward ns)^[n] q0) ls la
            - (reward + gamma * max (q0 ns 0) (q0 ns 1))| := by
  intro n
  have hstep :
      ((fun q => update_model alpha gamma q ls la reward ns)^[n + 1] q0) ls la
        - (reward + gamma * max (q0 ns 0) (q0 ns 1))
      = (1 - alpha) *
        (((fun q => update_model alpha gamma q ls la reward ns)^[n] q0) ls la
          - (reward + gamma * max (q0 ns 0) (q0 ns 1))) := by
    rw [Function.iterate_succ_apply']
    show update_model alpha gamma
        ((fun q => update_model alpha gamma q ls la reward ns)^[n] q0) ls la reward ns ls la
        - _ = _
    rw [update_model_at_target,
        update_model_iterate_fixed alpha gamma reward q0 ls ns la hne n 0,
        update_model_iterate_fixed alpha gamma reward q0 ls ns la hne n 1]
    ring
  have heq :
      |((fun q => update_model alpha gamma q ls la reward ns)^[n + 1] q0) ls la
          - (reward + gamma * max (q0 ns 0) (q0 ns 1))|
        = (1 - alpha) *
          |((fun q => update_model alpha gamma q ls la reward ns)^[n] q0) ls la
            - (reward + gamma * max (q0 ns 0) (q0 ns 1))| := by
    rw [hstep, abs_mul, abs_of_nonneg (by linarith : (0 : ℚ) ≤ 1 - alpha)]
  refine ⟨heq, ?_⟩
  rw [heq]
  exact mul_le_of_le_one_left (abs_nonneg _) (by linarith)

/-- Witness for C8 at a concrete instance: states in ℕ, the zero table,
`alpha = 1/10`, `gamma = 7/10`, reward 5, updating state 0 / action 0 with
next state 1, first step (`n = 0`). -/

theorem q_update_monotone_convergence_witness :
    |((fun q => update_model (1/10 : ℚ) (7/10) q (0 : ℕ) (0 : Fin 2) 5 1)^[0 + 1]
        (fun _ _ => 0)) 0 0
        - (5 + (7/10 : ℚ) * max ((fun (_ : ℕ) (_ : Fin 2) => (0 : ℚ)) 1 0)
            ((fun (_ : ℕ) (_ : Fin 2) => (0 : ℚ)) 1 1))|
      = (1 - (1/10 : ℚ)) *
        |((fun q => update_model (1/10 : ℚ) (7/10) q (0 : ℕ) (0 : Fin 2) 5 1)^[0]
            (fun _ _ => 0)) 0 0
          - (5 + (7/10 : ℚ) * max ((fun (_ : ℕ) (_ : Fin 2) => (0 : ℚ)) 1 0)
              ((fun (_ : ℕ) (_ : Fin 2) => (0 : ℚ)) 1 1))| ∧
    |((fun q => update_model (1/10 : ℚ) (7/10) q (0 : ℕ) (0 : Fin 2) 5 1)^[0 + 1]
        (fun _ _ => 0)) 0 0
        - (5 + (7/10 : ℚ) * max ((fun (_ : ℕ) (_ : Fin 2) => (0 : ℚ)) 1 0)
            ((fun (_ : ℕ) (_ : Fin 2) => (0 : ℚ)) 1 1))|
      ≤ |((fun q => update_model (1/10 : ℚ) (7/10) q (0 : ℕ) (0 : Fin 2) 5 1)^[0]
            (fun _ _ => 0)) 0 0
          - (5 + (7/10 : ℚ) * max ((fun (_ : ℕ) (_ : Fin 2) => (0 : ℚ)) 1 0)
              ((fun (_ : ℕ) (_ : Fin 2) => (0 : ℚ)) 1 1))| :=
  q_update_monotone_convergence (1/10) (7/10) 5 (fun _ _ => 0) 0 1 0
    (by norm_num) (by norm_num) (by decide) 0

/-! ## Claim C9 (corrected) -/

/-- Counterexample to C9 as stated: `"bogus"` is outside every configured
policy set, yet main.py's `run_simulation` raises no error for it — its
dispatch has no `else` branch, so the call proceeds to `env.run` and runs
the workload with no balancing policy at all. -/

theorem main_dispatch_unknown_runs_without_balancer :
    main_dispatch "bogus" = .noBalancer := by
  decide

/-- Claim C9, amended: only simulation.py's `run_simulation` validates the
policy name — for any `balancer_type` outside
`{reactive, q_table, q_table_large, dqn}` it raises
`ValueError("Unknown balancer type: ...")` before the simulation clock
starts; main.py's `run_simulation`, by contrast, treats any name outside
`{reactive, proactive}` as "no balancer" and silently runs the workload
without a balancing policy. -/

theorem unknown_balancer_type_dispatch (bt : String) :
    (bt ≠ "reactive" → bt ≠ "q_table" → bt ≠ "q_table_large" → bt ≠ "dqn" →
      simulation_dispatch bt = .valueError ("Unknown balancer type: " ++ bt)) ∧
    (bt ≠ "reactive" → bt ≠ "proactive" → main_dispatch bt = .noBalancer) := by
  constructor
  · intro h1 h2 h3 h4
    unfold simulation_dispatch
    rw [if_neg h1, if_neg h2, if_neg h3, if_neg h4]
  · intro h1 h5
    unfold main_dispatch
    rw [if_neg h1, if_neg h5]

/-- Witness for the amended C9 at the two cross-file disagreement names:
`"proactive"` is unknown to simulation.py and raises there, while
`"q_table"` is unknown to main.py and silently runs with no balancer. -/

theorem unknown_balancer_type_dispatch_witness :
    simulation_dispatch "proactive" = .valueError ("Unknown balancer type: " ++ "proactive") ∧
    main_dispatch "q_table" = .noBalancer :=
  ⟨(unknown_balancer_type_dispatch "proactive").1
      (by decide) (by decide) (by decide) (by decide),
   (unknown_balancer_type_dispatch "q_table").2 (by decide) (by decide)⟩

/-! ## Claim C10 -/

/-- Claim C10: selecting the `q_table`, `q_table_large` or `dqn` policy
cannot produce a running agent — `BaseRLAgent` is not bound in the
balancers module, so each agent module's `from balancers import
BaseRLAgent` raises `ImportError`; none of `get_raw_state`, `get_reward`,
`execute_action` — which the run loops call on `self` — is defined at
balancers module level or by the agent classes themselves; and run setup
through simulation.py ends in `ImportError` for each of the three
policies, before any construction or first tick.  Since simulation.py
imports the agent modules unconditionally at module level, the same
`ImportError` in fact pre-empts every policy selection, `reactive`
included. -/

theorem rl_agents_fail_before_first_tick :
    balancers_module_defines "BaseRLAgent" = false ∧
    rl_base_calls.all (fun m => !balancers_module_defines m) = true ∧
    rl_base_calls.all (fun m =>
      decide (m ∉ q_table_agent_methods) && decide (m ∉ q_table_large_agent_methods)
        && decide (m ∉ dqn_agent_methods)) = true ∧
    run_setup "q_table" = .importError ∧
    run_setup "q_table_large" = .importError ∧
    run_setup "dqn" = .importError ∧
    run_setup "reactive" = .importError := by
  decide
